import Mathlib

/-!
Shallow embedding of `scrapy_selenium/middlewares.py` (the `SeleniumMiddleware`
scrapy middleware) together with proofs about its session-lifecycle and
request-execution behaviour.

External effects (the selenium WebDriver backend, `random.uniform`,
`time.sleep`, the rendered page) are modelled by explicit oracle records
passed to the embedded functions; every externally visible interaction is
additionally recorded in a trace of `Action`s so that ordering properties
can be stated.
-/

namespace ScrapySelenium

/-- Python exceptions that the middleware code can raise, as they appear in
`middlewares.py`: `NotConfigured` (raised in `from_crawler`),
`AttributeError` (raised on access to a missing attribute, e.g. the
nonexistent `_driver_name_options` on line 104 or a missing `driver`
attribute), `WebDriverException`-style failures of driver cleanup calls,
`TimeoutException` (raised by `WebDriverWait.until`), and a javascript
error raised by `execute_script`. -/
inductive PyError where
  | notConfigured (msg : String)
  | attrError (attr : String)
  | webDriverError (op : String)
  | timeoutException
  | javascriptException
deriving DecidableEq, Repr

/-- Externally visible interactions performed by the middleware, recorded in
order of execution. -/
inductive Action where
  | deleteAllCookies (id : Nat)
  | quitDriver (id : Nat)
  | createLocalDriver
  | setWindowSize (w h : ℚ)
  | clearPool
  | newPoolManager
  | installReplaceHook
  | sleep (d : ℚ)
  | addCookie (name value : String)
  | navigate (url : String)
  | waitUntil
  | takeScreenshot
  | executeScript (s : String)
deriving DecidableEq, Repr

/-- The mutable state of a `SeleniumMiddleware` instance, as set up by
`__init__` (lines 18-79).  Driver objects are identified by natural-number
ids allocated in creation order; `driver = some id` models the presence of
the `self.driver` attribute bound to driver `id` (`hasattr(self, "driver")`
on line 82), `dead` records the ids on which `quit()` has been called, and
`nextId` is the next fresh id.  The configuration fields mirror
`self._driver_name`, `self._command_executor`,
`self._driver_kwargs["executable_path"]` and the driver options built on
lines 58-77. -/
structure MWState where
  driverName : String
  commandExecutor : Option String
  executablePath : Option String
  optionsBinary : Option String
  optionsArgs : List String
  optionsPrefs : List (String × String)
  profileKw : Option String
  nextId : Nat
  driver : Option Nat
  dead : List Nat
deriving DecidableEq, Repr

/-- A driver id `i` is alive in state `st` when it has been created
(`i < st.nextId`) and `quit()` has never been called on it. -/
def isAlive (st : MWState) (i : Nat) : Bool :=
  decide (i < st.nextId) && !(decide (i ∈ st.dead))

/-- Oracle for the external effects of `replace_driver`: whether the
best-effort cleanup calls `delete_all_cookies()` (line 83) and `quit()`
(line 84) raise, and the two `random.uniform` samples used for
`set_window_size` (lines 89-92). -/
structure ReplaceOracle where
  purgeFails : Bool
  quitFails : Bool
  winW : ℚ
  winH : ℚ
deriving DecidableEq, Repr

/-- The driver-creation half of `replace_driver` (lines 86-112), run after
the optional cleanup of an existing driver.  If
`self._driver_kwargs["executable_path"]` is not `None` (line 87), a local
driver is created, its window size randomized and its connection pool
replaced (lines 88-100).  Otherwise, if `self._command_executor` is not
`None` (line 102), line 104 evaluates the f-string
`f"{self._driver_name_options}"`, which reads the attribute
`_driver_name_options` that is never assigned anywhere in the class, so an
`AttributeError` is raised before any remote driver is created.  If neither
is set, no branch assigns `self.driver`, and line 110
(`self.driver.replace_driver = self.replace_driver`) either installs the
hook on the previously bound (already quit) driver and returns it, or
raises `AttributeError` when no `driver` attribute exists. -/
def createDriver (st : MWState) (o : ReplaceOracle) :
    Except PyError (MWState × Nat) × List Action :=
  if st.executablePath.isSome then
    let id := st.nextId
    (.ok ({ st with nextId := id + 1, driver := some id }, id),
     [.createLocalDriver, .setWindowSize o.winW o.winH, .clearPool,
      .newPoolManager, .installReplaceHook])
  else if st.commandExecutor.isSome then
    (.error (.attrError "_driver_name_options"), [])
  else
    match st.driver with
    | some id => (.ok (st, id), [.installReplaceHook])
    | none => (.error (.attrError "driver"), [])

/-- `SeleniumMiddleware.replace_driver` (lines 81-112).  If a `driver`
attribute exists (line 82), its cookies are purged and it is quit
(lines 83-84) with no exception handling, so a failure of either call
propagates to the caller; then a new driver is created by `createDriver`.
Returns the resulting state and the id of the driver bound to
`self.driver`, plus the trace of external interactions. -/
def replace_driver (st : MWState) (o : ReplaceOracle) :
    Except PyError (MWState × Nat) × List Action :=
  match st.driver with
  | some old =>
    if o.purgeFails then
      (.error (.webDriverError "delete_all_cookies"), [])
    else if o.quitFails then
      (.error (.webDriverError "quit"), [.deleteAllCookies old])
    else
      let cleaned : MWState := { st with dead := old :: st.dead }
      let r := createDriver cleaned o
      (r.1, .deleteAllCookies old :: .quitDriver old :: r.2)
  | none => createDriver st o

/-- The crawler settings read by `from_crawler` (lines 118-126). -/
structure Settings where
  driverName : Option String
  driverExecutablePath : Option String
  browserExecutablePath : Option String
  commandExecutor : Option String
  driverArguments : List String
  driverPreferences : List (String × String)
  driverProfile : Option String
deriving DecidableEq, Repr

/-- `SeleniumMiddleware.__init__` (lines 18-79): builds the driver options
(binary location, arguments, and — for firefox — preferences and profile,
lines 58-77), stores the configuration, and immediately calls
`replace_driver` (line 79). -/
def initMiddleware (driver_name : String) (driver_executable_path : Option String)
    (browser_executable_path : Option String) (command_executor : Option String)
    (driver_arguments : List String) (driver_preferences : List (String × String))
    (driver_profile : Option String) (o : ReplaceOracle) :
    Except PyError (MWState × Nat) × List Action :=
  replace_driver
    { driverName := driver_name
      commandExecutor := command_executor
      executablePath := driver_executable_path
      optionsBinary := browser_executable_path
      optionsArgs := driver_arguments
      optionsPrefs := if driver_name = "firefox" then driver_preferences else []
      profileKw := if driver_name = "firefox" then driver_profile else none
      nextId := 0
      driver := none
      dead := [] } o

/-- `SeleniumMiddleware.from_crawler` (lines 114-149): raises
`NotConfigured` when `SELENIUM_DRIVER_NAME` is unset (lines 128-129) or
when neither `SELENIUM_DRIVER_EXECUTABLE_PATH` nor
`SELENIUM_COMMAND_EXECUTOR` is set (lines 131-133); otherwise constructs
the middleware, which creates the first driver. -/
def from_crawler (s : Settings) (o : ReplaceOracle) :
    Except PyError (MWState × Nat) × List Action :=
  if s.driverName.isNone then
    (.error (.notConfigured "SELENIUM_DRIVER_NAME must be set"), [])
  else if s.driverExecutablePath.isNone && s.commandExecutor.isNone then
    (.error (.notConfigured
      "Either SELENIUM_DRIVER_EXECUTABLE_PATH or SELENIUM_COMMAND_EXECUTOR must be set"), [])
  else
    initMiddleware (s.driverName.getD "") s.driverExecutablePath
      s.browserExecutablePath s.commandExecutor s.driverArguments
      s.driverPreferences s.driverProfile o

/-- `SeleniumMiddleware.spider_closed` (lines 197-200): unconditionally
evaluates `self.driver.quit()`.  When no `driver` attribute exists the
attribute access raises `AttributeError`; otherwise `quit()` terminates
the driver (a no-op when it is already quit, per the WebDriver contract). -/
def spider_closed (st : MWState) : Except PyError MWState :=
  match st.driver with
  | some id => .ok { st with dead := id :: st.dead }
  | none => .error (.attrError "driver")

/-- Values stored in the `meta` dictionary of a request: the screenshot
bytes stored under `"screenshot"` (line 180), the non-owning driver
back-reference stored under `"driver"` (line 188), or arbitrary caller
data already present. -/
inductive MetaVal where
  | bytes (b : List UInt8)
  | driverRef (id : Nat)
  | str (s : String)
deriving DecidableEq, Repr

/-- Python dict assignment `m[k] = v`: replaces the value of an existing
key in place, otherwise appends the new pair (insertion order preserved). -/
def setKey (m : List (String × MetaVal)) (k : String) (v : MetaVal) :
    List (String × MetaVal) :=
  if m.any (fun p => p.1 = k) then
    m.map (fun p => if p.1 = k then (k, v) else p)
  else m ++ [(k, v)]

/-- The data carried by a `SeleniumRequest`, as consumed by
`process_request` (lines 151-195): `url`, `cookies` (a mapping iterated in
insertion order on line 164), the wait condition (`wait_until`, modelled by
its presence) and its timeout `wait_time`, the `screenshot` flag, the
optional `script`, and the mutable `meta` dictionary. -/
structure SeleniumReq where
  url : String
  cookies : List (String × String)
  wait_until : Bool
  wait_time : ℚ
  screenshot : Bool
  script : Option String
  meta : List (String × MetaVal)
deriving DecidableEq, Repr

/-- An ordinary (non-selenium) scrapy request. -/
structure PlainReq where
  url : String
deriving DecidableEq, Repr

/-- An incoming request: the `isinstance(request, SeleniumRequest)` check
on line 154 distinguishes the two constructors. -/
inductive Request where
  | plain (p : PlainReq)
  | selenium (r : SeleniumReq)
deriving DecidableEq, Repr

/-- The spider settings read on lines 157-158: `DOWNLOAD_DELAY` via
`getint` (an integer) and `RANDOMIZE_DOWNLOAD_DELAY` via `getbool`. -/
structure SpiderSettings where
  downloadDelay : Int
  randomizeDelay : Bool
deriving DecidableEq, Repr

/-- Oracle for the external effects of one `process_request` execution:
the value returned by `random.uniform(0.5 * delay, 1.5 * delay)`
(line 161), the URL the browser lands on after `driver.get` and redirects
(`driver.current_url`), the rendered markup (`driver.page_source`),
whether the wait condition becomes true within `wait_time`
(`WebDriverWait(...).until`, lines 175-177), the PNG bytes returned by
`get_screenshot_as_png` (line 180), and whether `execute_script`
(line 183) raises. -/
structure FetchOracle where
  uniformDelay : ℚ
  landedUrl : String
  renderedSource : String
  waitMet : Bool
  screenshotPng : List UInt8
  scriptFails : Bool
deriving DecidableEq, Repr

/-- The state of the live driver object as seen by the request executor:
its id, aliveness, session cookie store, and the current page state. -/
structure DriverState where
  id : Nat
  isAlive : Bool
  cookieJar : List (String × String)
  currentUrl : String
  pageSource : String
deriving DecidableEq, Repr

/-- The `HtmlResponse` built on lines 190-195: first positional argument is
`self.driver.current_url`, `body` is `str.encode(self.driver.page_source)`
(UTF-8, the default encoding of `str.encode`), `encoding` is the literal
`"utf-8"`, and `request` is the (mutated) incoming request. -/
structure HtmlResponse where
  url : String
  body : List UInt8
  encoding : String
  request : Request
deriving DecidableEq, Repr

/-- Outcome of `process_request`: `passThrough` models `return None`
(line 155), `response` a returned `HtmlResponse`, `error` a raised
exception. -/
inductive ProcResult where
  | passThrough
  | response (r : HtmlResponse)
  | error (e : PyError)
deriving DecidableEq, Repr

/-- Full observable outcome of one `process_request` call: the returned
value or raised exception, the trace of external interactions, the driver
state afterwards, and the (possibly mutated) request object. -/
structure ProcOutcome where
  result : ProcResult
  trace : List Action
  driver : DriverState
  request : Request
deriving DecidableEq, Repr

/-- The pacing step (lines 157-162): when `DOWNLOAD_DELAY` is nonzero
(`if delay:`), sleep for the delay itself, or for the `random.uniform`
sample when `RANDOMIZE_DOWNLOAD_DELAY` is set. -/
def pacingTrace (s : SpiderSettings) (o : FetchOracle) : List Action :=
  if s.downloadDelay ≠ 0 then
    if s.randomizeDelay then [Action.sleep o.uniformDelay]
    else [Action.sleep ((s.downloadDelay : ℚ))]
  else []

/-- The steps of `process_request` after `driver.get` (lines 174-195),
acting on the post-navigation driver state `d` and request `r`: the
optional `WebDriverWait` (raising `TimeoutException` when the condition is
not met within `wait_time`), the optional screenshot stored into
`request.meta["screenshot"]`, the optional `execute_script` (whose failure
propagates), then body extraction, the `request.meta.update with the "driver" key
...})` back-reference, and the `HtmlResponse` construction.  Returns the
result, the trace of these steps, and the final request. -/
def postNavigate (d : DriverState) (o : FetchOracle) (r : SeleniumReq) :
    ProcResult × List Action × SeleniumReq :=
  if r.wait_until && !o.waitMet then
    (.error .timeoutException, [.waitUntil], r)
  else
    let waitActs : List Action := if r.wait_until then [.waitUntil] else []
    let shot := if r.screenshot then
        ({ r with meta := setKey r.meta "screenshot" (MetaVal.bytes o.screenshotPng) },
         [Action.takeScreenshot])
      else (r, [])
    let r2 := shot.1
    let finish : ProcResult × SeleniumReq :=
      let r3 := { r2 with meta := setKey r2.meta "driver" (MetaVal.driverRef d.id) }
      (.response { url := d.currentUrl, body := d.pageSource.toUTF8.toList,
                   encoding := "utf-8", request := .selenium r3 }, r3)
    match r.script with
    | some s =>
      if o.scriptFails then
        (.error .javascriptException, waitActs ++ shot.2 ++ [.executeScript s], r2)
      else
        (finish.1, waitActs ++ shot.2 ++ [.executeScript s], finish.2)
    | none => (finish.1, waitActs ++ shot.2, finish.2)

/-- `SeleniumMiddleware.process_request` (lines 151-195).  A request that
is not a `SeleniumRequest` is returned to scrapy untouched with `None`
(lines 154-155) and no driver interaction.  For a `SeleniumRequest`: the
pacing sleep, then each cookie of `request.cookies` is added to the driver
in insertion order (lines 164-170), then `driver.get(request.url)`
(line 172) which updates the page state from the oracle, then the
post-navigation steps. -/
def process_request (d : DriverState) (s : SpiderSettings) (o : FetchOracle) :
    Request → ProcOutcome
  | .plain p =>
    { result := .passThrough, trace := [], driver := d, request := .plain p }
  | .selenium r =>
    let d2 : DriverState :=
      { d with cookieJar := d.cookieJar ++ r.cookies,
               currentUrl := o.landedUrl, pageSource := o.renderedSource }
    let post := postNavigate d2 o r
    { result := post.1
      trace := pacingTrace s o ++ (r.cookies.map fun c => Action.addCookie c.1 c.2)
               ++ Action.navigate r.url :: post.2.1
      driver := d2
      request := .selenium post.2.2 }

/-- Recognizes a pacing sleep in a trace. -/
def isSleepAction : Action → Bool
  | .sleep _ => true
  | _ => false

/-- A state is good when every alive driver id is the one currently bound
to `self.driver`; this is the inductive invariant behind the
single-live-session property. -/
def GoodState (st : MWState) : Prop :=
  ∀ i, isAlive st i = true → st.driver = some i

/-- The states of a `SeleniumMiddleware` instance reachable through its
public lifecycle: construction via `from_crawler`, a returning
`replace_driver` call, and a returning `spider_closed` call. -/
inductive Reachable : MWState → Prop where
  | init (s : Settings) (o : ReplaceOracle) (st : MWState) (id : Nat) :
      (from_crawler s o).1 = .ok (st, id) → Reachable st
  | replace (st st2 : MWState) (o : ReplaceOracle) (id : Nat) :
      Reachable st → (replace_driver st o).1 = .ok (st2, id) → Reachable st2
  | closed (st st2 : MWState) :
      Reachable st → spider_closed st = .ok st2 → Reachable st2

/-- Cleanup oracle where neither best-effort call fails. -/
def quietOracle : ReplaceOracle :=
  { purgeFails := false, quitFails := false, winW := 1200, winH := 800 }

/-- Settings with only `SELENIUM_DRIVER_EXECUTABLE_PATH` set. -/
def localSettings : Settings :=
  { driverName := some "firefox"
    driverExecutablePath := some "/usr/local/bin/geckodriver"
    browserExecutablePath := none
    commandExecutor := none
    driverArguments := []
    driverPreferences := []
    driverProfile := none }

/-- Settings with only `SELENIUM_COMMAND_EXECUTOR` set. -/
def remoteSettings : Settings :=
  { localSettings with
    driverExecutablePath := none
    commandExecutor := some "http://selenium-hub:4444/wd/hub" }

/-- Settings with neither connection path set. -/
def neitherSettings : Settings :=
  { localSettings with driverExecutablePath := none, commandExecutor := none }

/-- The middleware state produced by `from_crawler localSettings`: driver 0
alive and bound. -/
def stFirst : MWState :=
  { driverName := "firefox"
    commandExecutor := none
    executablePath := some "/usr/local/bin/geckodriver"
    optionsBinary := none
    optionsArgs := []
    optionsPrefs := []
    profileKw := none
    nextId := 1
    driver := some 0
    dead := [] }

/-- `stFirst` after one more `replace_driver`: driver 0 dead, driver 1
alive. -/
def stSecond : MWState :=
  { stFirst with nextId := 2, driver := some 1, dead := [0] }

/-- `stSecond` after one more `replace_driver`: drivers 0 and 1 dead,
driver 2 alive. -/
def stThird : MWState :=
  { stFirst with nextId := 3, driver := some 2, dead := [1, 0] }

/-- A middleware state whose `driver` attribute is missing. -/
def noDriverState : MWState :=
  { stFirst with nextId := 0, driver := none }

/-- A live driver object fixture. -/
def dFix : DriverState :=
  { id := 0, isAlive := true, cookieJar := [], currentUrl := "about:blank",
    pageSource := "" }

/-- Spider settings fixture: one-second delay, no randomization. -/
def sFix : SpiderSettings := { downloadDelay := 1, randomizeDelay := false }

/-- Fetch oracle fixture where the wait condition never becomes true. -/
def oFix : FetchOracle :=
  { uniformDelay := 1, landedUrl := "http://example.test/",
    renderedSource := "<html></html>", waitMet := false,
    screenshotPng := [137], scriptFails := false }

/-- Fetch oracle fixture where the wait condition is met. -/
def oFix2 : FetchOracle := { oFix with waitMet := true }

/-- A `SeleniumRequest` fixture with two cookies and a wait condition. -/
def rFix : SeleniumReq :=
  { url := "http://example.test", cookies := [("a", "1"), ("b", "2")],
    wait_until := true, wait_time := 2, screenshot := false, script := none,
    meta := [] }

/-- Cleanup oracle where the cookie purge of the old driver raises. -/
def failPurgeOracle : ReplaceOracle :=
  { purgeFails := true, quitFails := false, winW := 1200, winH := 800 }

/-- Cleanup oracle where `quit()` on the old driver raises. -/
def failQuitOracle : ReplaceOracle :=
  { purgeFails := false, quitFails := true, winW := 1200, winH := 800 }

theorem isAlive_iff (st : MWState) (i : Nat) :
    isAlive st i = true ↔ i < st.nextId ∧ ¬ i ∈ st.dead := by
  simp [isAlive]

theorem createDriver_ok_cases (st : MWState) (o : ReplaceOracle) (st2 : MWState) (id : Nat)
    (h : (createDriver st o).1 = .ok (st2, id)) :
    (st.executablePath.isSome = true
      ∧ st2 = { st with nextId := st.nextId + 1, driver := some st.nextId }
      ∧ id = st.nextId)
    ∨ (st.executablePath.isSome = false ∧ st.commandExecutor.isSome = false
      ∧ st2 = st ∧ st.driver = some id) := by
  unfold createDriver at h
  split at h
  · rename_i he
    left
    simp only [Except.ok.injEq, Prod.mk.injEq] at h
    exact ⟨he, h.1.symm, h.2.symm⟩
  · rename_i he
    split at h
    · simp at h
    · rename_i hc
      right
      split at h
      · rename_i hd
        simp only [Except.ok.injEq, Prod.mk.injEq] at h
        refine ⟨by simpa using he, by simpa using hc, h.1.symm, ?_⟩
        rw [hd, h.2]
      · simp at h

theorem replace_driver_ok_cases (st : MWState) (o : ReplaceOracle) (st2 : MWState) (id : Nat)
    (h : (replace_driver st o).1 = .ok (st2, id)) :
    (st.driver = none ∧ (createDriver st o).1 = .ok (st2, id))
    ∨ (∃ old, st.driver = some old ∧ o.purgeFails = false ∧ o.quitFails = false
        ∧ (createDriver { st with dead := old :: st.dead } o).1 = .ok (st2, id)) := by
  unfold replace_driver at h
  split at h
  · rename_i old hd
    right
    split at h
    · simp at h
    · rename_i hp
      split at h
      · simp at h
      · rename_i hq
        exact ⟨old, hd, by simpa using hp, by simpa using hq, h⟩
  · rename_i hd
    left
    exact ⟨hd, h⟩

theorem replace_driver_ok_driver (st : MWState) (o : ReplaceOracle) (st2 : MWState) (id : Nat)
    (h : (replace_driver st o).1 = .ok (st2, id)) : st2.driver = some id := by
  rcases replace_driver_ok_cases st o st2 id h with ⟨hd, hc⟩ | ⟨old, hd, hp, hq, hc⟩ <;>
  · rcases createDriver_ok_cases _ _ _ _ hc with ⟨_, h2, h3⟩ | ⟨_, _, h2, h3⟩
    · subst h2; subst h3; rfl
    · subst h2; exact h3

theorem replace_driver_ok_dead_old (st : MWState) (o : ReplaceOracle) (st2 : MWState)
    (id old : Nat) (hd : st.driver = some old)
    (h : (replace_driver st o).1 = .ok (st2, id)) : old ∈ st2.dead := by
  rcases replace_driver_ok_cases st o st2 id h with ⟨hn, _⟩ | ⟨old2, hd2, hp, hq, hc⟩
  · rw [hd] at hn; cases hn
  · rw [hd] at hd2
    injection hd2 with he
    subst he
    rcases createDriver_ok_cases _ _ _ _ hc with ⟨_, h2, _⟩ | ⟨_, _, h2, _⟩ <;>
    · subst h2; simp

theorem goodState_of_nextId_zero (st : MWState) (h : st.nextId = 0) : GoodState st := by
  intro i hi
  rw [isAlive_iff] at hi
  exact absurd hi.1 (by omega)

theorem replace_driver_ok_good (st : MWState) (o : ReplaceOracle) (st2 : MWState) (id : Nat)
    (hg : GoodState st) (h : (replace_driver st o).1 = .ok (st2, id)) :
    GoodState st2 := by
  rcases replace_driver_ok_cases st o st2 id h with ⟨hd, hc⟩ | ⟨old, hd, hp, hq, hc⟩
  · rcases createDriver_ok_cases _ _ _ _ hc with ⟨_, h2, h3⟩ | ⟨_, _, h2, h3⟩
    · subst h2
      intro i hi
      rw [isAlive_iff] at hi
      simp only at hi
      rcases Nat.lt_succ_iff_lt_or_eq.mp hi.1 with hlt | heq
      · have := hg i (by rw [isAlive_iff]; exact ⟨hlt, hi.2⟩)
        rw [hd] at this
        cases this
      · subst heq; rfl
    · subst h2
      rw [hd] at h3
      cases h3
  · rcases createDriver_ok_cases _ _ _ _ hc with ⟨_, h2, h3⟩ | ⟨_, _, h2, h3⟩
    · subst h2
      intro i hi
      rw [isAlive_iff] at hi
      simp only [List.mem_cons, not_or] at hi
      rcases Nat.lt_succ_iff_lt_or_eq.mp hi.1 with hlt | heq
      · have := hg i (by rw [isAlive_iff]; exact ⟨hlt, hi.2.2⟩)
        rw [hd] at this
        injection this with he
        exact absurd he.symm hi.2.1
      · subst heq; rfl
    · subst h2
      intro i hi
      rw [isAlive_iff] at hi
      simp only [List.mem_cons, not_or] at hi
      have := hg i (by rw [isAlive_iff]; exact ⟨hi.1, hi.2.2⟩)
      rw [hd] at this
      injection this with he
      exact absurd he.symm hi.2.1

theorem from_crawler_ok_replace (s : Settings) (o : ReplaceOracle) (st : MWState) (id : Nat)
    (h : (from_crawler s o).1 = .ok (st, id)) :
    ∃ st0 : MWState, st0.nextId = 0 ∧ st0.driver = none
      ∧ (replace_driver st0 o).1 = .ok (st, id) := by
  unfold from_crawler initMiddleware at h
  split at h
  · simp at h
  · split at h
    · simp at h
    · exact ⟨_, rfl, rfl, h⟩

theorem spider_closed_ok_good (st st2 : MWState) (hg : GoodState st)
    (h : spider_closed st = .ok st2) : GoodState st2 := by
  unfold spider_closed at h
  split at h
  · rename_i id hd
    simp only [Except.ok.injEq] at h
    subst h
    intro i hi
    rw [isAlive_iff] at hi
    simp only [List.mem_cons, not_or] at hi
    have := hg i (by rw [isAlive_iff]; exact ⟨hi.1, hi.2.2⟩)
    rw [hd] at this
    injection this with he
    exact absurd he.symm hi.2.1
  · cases h

theorem reachable_good (st : MWState) (h : Reachable st) : GoodState st := by
  induction h with
  | init s o st id hok =>
    obtain ⟨st0, hn, _, hr⟩ := from_crawler_ok_replace s o st id hok
    exact replace_driver_ok_good st0 o st id (goodState_of_nextId_zero st0 hn) hr
  | replace st st2 o id _ hok ih => exact replace_driver_ok_good st o st2 id ih hok
  | closed st st2 _ hok ih => exact spider_closed_ok_good st st2 ih hok

theorem reachable_driver_isSome (st : MWState) (h : Reachable st) :
    st.driver.isSome = true := by
  induction h with
  | init s o st id hok =>
    obtain ⟨st0, _, _, hr⟩ := from_crawler_ok_replace s o st id hok
    rw [replace_driver_ok_driver st0 o st id hr]
    rfl
  | replace st st2 o id _ hok ih =>
    rw [replace_driver_ok_driver st o st2 id hok]
    rfl
  | closed st st2 _ hok ih =>
    unfold spider_closed at hok
    split at hok
    · rename_i id hd
      simp only [Except.ok.injEq] at hok
      subst hok
      simp [hd]
    · cases hok

theorem postNavigate_no_sleep (d : DriverState) (o : FetchOracle) (r : SeleniumReq) :
    (postNavigate d o r).2.1.filter isSleepAction = [] := by
  unfold postNavigate
  split
  · rfl
  · cases hs : r.script <;>
      cases hw : r.wait_until <;>
        cases hscr : r.screenshot <;>
          cases hsf : o.scriptFails <;>
            simp [isSleepAction, hsf]

theorem filter_sleep_map_addCookie (l : List (String × String)) :
    (l.map fun c => Action.addCookie c.1 c.2).filter isSleepAction = [] := by
  induction l with
  | nil => rfl
  | cons a t ih => simp [List.filter_cons, isSleepAction, ih]

/-- C1: with only a local executable path configured, `from_crawler`
produces a middleware whose driver is alive; with neither path configured
it raises `NotConfigured`; but with only a remote `command_executor`
configured, line 104 reads the never-assigned attribute
`_driver_name_options` and raises `AttributeError` instead of creating a
remote session, contradicting the claim (and the intent visible in the
`f"{driver_name}_options"` key stored on line 73). -/
theorem c1_connection_paths :
    ((from_crawler localSettings quietOracle).1 = .ok (stFirst, 0)
      ∧ isAlive stFirst 0 = true)
    ∧ (from_crawler neitherSettings quietOracle).1
        = .error (.notConfigured
            "Either SELENIUM_DRIVER_EXECUTABLE_PATH or SELENIUM_COMMAND_EXECUTOR must be set")
    ∧ (from_crawler remoteSettings quietOracle).1
        = .error (.attrError "_driver_name_options") :=
  ⟨⟨rfl, rfl⟩, rfl, rfl⟩

/-- C2 counterexample: with a live driver bound, a failing
`delete_all_cookies()` on line 83 propagates out of `replace_driver`
(there is no exception handler), no new session is created and no further
interaction happens — refuting the claim that cleanup failures are
swallowed and a new session is created regardless. -/
theorem c2_counterexample :
    (replace_driver stFirst failPurgeOracle).1
        = .error (.webDriverError "delete_all_cookies")
    ∧ (replace_driver stFirst failPurgeOracle).2 = [] :=
  ⟨rfl, rfl⟩

/-- C2 amended: failures raised by the cookie purge or by `quit()` of the
old session propagate to the caller of `replace_driver` and no new
session is created in that case; only when both cleanup calls succeed does
a new (local) session get created. -/
theorem c2_amended_cleanup_failures_propagate (st : MWState) (o : ReplaceOracle)
    (old : Nat) (hd : st.driver = some old) :
    (o.purgeFails = true →
      (replace_driver st o).1 = .error (.webDriverError "delete_all_cookies"))
    ∧ (o.purgeFails = false → o.quitFails = true →
      (replace_driver st o).1 = .error (.webDriverError "quit"))
    ∧ (o.purgeFails = false → o.quitFails = false → st.executablePath.isSome = true →
      (replace_driver st o).1
        = .ok ({ st with
                  dead := old :: st.dead
                  nextId := st.nextId + 1
                  driver := some st.nextId }, st.nextId)) := by
  refine ⟨?_, ?_, ?_⟩
  · intro hp
    simp [replace_driver, hd, hp]
  · intro hp hq
    simp [replace_driver, hd, hp, hq]
  · intro hp hq he
    simp [replace_driver, createDriver, hd, hp, hq, he]

theorem c2_amended_witness :
    stFirst.driver = some 0
    ∧ (replace_driver stFirst failQuitOracle).1 = .error (.webDriverError "quit") :=
  ⟨rfl, (c2_amended_cleanup_failures_propagate stFirst failQuitOracle 0 rfl).2.1 rfl rfl⟩

/-- C3: in every state reachable through the middleware lifecycle at most
one driver id is alive, and after two consecutive returning
`replace_driver` calls the driver returned by the first call is no longer
alive (its cookies were purged and it was quit before the second driver
was created). -/
theorem c3_single_live_session :
    (∀ st, Reachable st → ∀ i j, isAlive st i = true → isAlive st j = true → i = j)
    ∧ (∀ st st1 st2 : MWState, ∀ o1 o2 : ReplaceOracle, ∀ id1 id2 : Nat,
        (replace_driver st o1).1 = .ok (st1, id1) →
        (replace_driver st1 o2).1 = .ok (st2, id2) →
        isAlive st2 id1 = false) := by
  constructor
  · intro st hr i j hi hj
    have hg := reachable_good st hr
    have h1 := hg i hi
    have h2 := hg j hj
    rw [h1] at h2
    exact Option.some.inj h2
  · intro st st1 st2 o1 o2 id1 id2 h1 h2
    have hd1 : st1.driver = some id1 := replace_driver_ok_driver st o1 st1 id1 h1
    have hdead : id1 ∈ st2.dead := replace_driver_ok_dead_old st1 o2 st2 id2 id1 hd1 h2
    simp [isAlive, hdead]

theorem c3_witness : ((0 : Nat) = 0) ∧ isAlive stThird 1 = false :=
  ⟨c3_single_live_session.1 stFirst
      (Reachable.init localSettings quietOracle stFirst 0 rfl) 0 0 (by decide) (by decide),
   c3_single_live_session.2 stFirst stSecond stThird quietOracle quietOracle 1 2 rfl rfl⟩

/-- C4: a request that is not a `SeleniumRequest` is answered with the
no-op sentinel `None`, an empty interaction trace, an unchanged driver and
an unchanged request. -/
theorem c4_non_selenium_passthrough (d : DriverState) (s : SpiderSettings)
    (o : FetchOracle) (p : PlainReq) :
    process_request d s o (.plain p)
      = { result := .passThrough, trace := [], driver := d, request := .plain p } :=
  rfl

/-- C5: when a wait condition is present and is not met within
`wait_time`, `process_request` raises `TimeoutException` and the driver
stays alive — the failure neither tears down nor replaces the session. -/
theorem c5_wait_timeout_keeps_session (d : DriverState) (s : SpiderSettings)
    (o : FetchOracle) (r : SeleniumReq) (halive : d.isAlive = true)
    (hw : r.wait_until = true) (hm : o.waitMet = false) :
    (process_request d s o (.selenium r)).result = .error .timeoutException
    ∧ (process_request d s o (.selenium r)).driver.isAlive = true := by
  constructor
  · simp [process_request, postNavigate, hw, hm]
  · simpa [process_request] using halive

theorem c5_witness :
    (process_request dFix sFix oFix (.selenium rFix)).result
        = .error .timeoutException
    ∧ (process_request dFix sFix oFix (.selenium rFix)).driver.isAlive = true :=
  c5_wait_timeout_keeps_session dFix sFix oFix rFix rfl rfl rfl

/-- C7: with `DOWNLOAD_DELAY = 0` no sleep occurs anywhere in the
execution; with a nonzero delay and randomization off, the very first
action is a sleep of exactly the configured delay; with randomization on,
the very first action is a sleep of the value returned by
`random.uniform(0.5 * delay, 1.5 * delay)` (modelled by the oracle), and
when that value lies in [0.5·delay, 1.5·delay] the slept value does too. -/
theorem c7_pacing (d : DriverState) (s : SpiderSettings) (o : FetchOracle)
    (r : SeleniumReq) :
    (s.downloadDelay = 0 →
      (process_request d s o (.selenium r)).trace.filter isSleepAction = [])
    ∧ (s.downloadDelay ≠ 0 → s.randomizeDelay = false →
      (process_request d s o (.selenium r)).trace.head?
        = some (.sleep ((s.downloadDelay : ℚ))))
    ∧ (s.downloadDelay ≠ 0 → s.randomizeDelay = true →
      (process_request d s o (.selenium r)).trace.head? = some (.sleep o.uniformDelay))
    ∧ (s.downloadDelay ≠ 0 → s.randomizeDelay = true →
      (s.downloadDelay : ℚ) / 2 ≤ o.uniformDelay →
      o.uniformDelay ≤ 3 * (s.downloadDelay : ℚ) / 2 →
      ∃ q, (process_request d s o (.selenium r)).trace.head? = some (.sleep q)
        ∧ (s.downloadDelay : ℚ) / 2 ≤ q ∧ q ≤ 3 * (s.downloadDelay : ℚ) / 2) := by
  refine ⟨?_, ?_, ?_, ?_⟩
  · intro h0
    simp [process_request, pacingTrace, h0, List.filter_append, List.filter_cons,
      filter_sleep_map_addCookie, postNavigate_no_sleep, isSleepAction]
  · intro hne hrand
    simp [process_request, pacingTrace, hne, hrand]
  · intro hne hrand
    simp [process_request, pacingTrace, hne, hrand]
  · intro hne hrand hlo hhi
    refine ⟨o.uniformDelay, ?_, hlo, hhi⟩
    simp [process_request, pacingTrace, hne, hrand]

theorem c7_witness :
    (sFix.downloadDelay ≠ 0)
    ∧ (process_request dFix sFix oFix (.selenium rFix)).trace.head?
        = some (.sleep ((sFix.downloadDelay : ℚ))) :=
  ⟨by decide, (c7_pacing dFix sFix oFix rFix).2.1 (by decide) rfl⟩

/-- C8: the interaction trace of a selenium request is the pacing phase
(consisting only of sleeps), followed by one `add_cookie` per entry of
`request.cookies` in insertion order and without deduplication, followed
by the navigation to `request.url`; and the driver cookie store receives
exactly those cookies, appended in insertion order. -/
theorem c8_cookies_in_order_before_navigation (d : DriverState) (s : SpiderSettings)
    (o : FetchOracle) (r : SeleniumReq) :
    (process_request d s o (.selenium r)).trace
      = pacingTrace s o ++ (r.cookies.map fun c => Action.addCookie c.1 c.2)
        ++ Action.navigate r.url
          :: (postNavigate { d with
                cookieJar := d.cookieJar ++ r.cookies
                currentUrl := o.landedUrl
                pageSource := o.renderedSource } o r).2.1
    ∧ (pacingTrace s o).all isSleepAction = true
    ∧ (process_request d s o (.selenium r)).driver.cookieJar
        = d.cookieJar ++ r.cookies := by
  refine ⟨rfl, ?_, rfl⟩
  unfold pacingTrace
  split
  · split <;> rfl
  · rfl

/-- C6: on every state reachable through the middleware lifecycle,
`spider_closed` produces no error, and calling it again right away also
produces no error (quit on the already-terminated driver is a no-op under
the WebDriver contract).  A constructed middleware always has the
`driver` attribute, so the unguarded `self.driver.quit()` on line 200 is
safe on all reachable states, including those where no session is alive
any more. -/
theorem c6_spider_closed_idempotent (st : MWState) (h : Reachable st) :
    ∃ st1, spider_closed st = .ok st1 ∧ ∃ st2, spider_closed st1 = .ok st2 := by
  have hs := reachable_driver_isSome st h
  rcases ho : st.driver with _ | id
  · rw [ho] at hs
    cases hs
  · exact ⟨{ st with dead := id :: st.dead }, by simp [spider_closed, ho],
      { st with dead := id :: id :: st.dead }, by simp [spider_closed, ho]⟩

theorem c6_witness :
    ∃ st1, spider_closed stFirst = .ok st1 ∧ ∃ st2, spider_closed st1 = .ok st2 :=
  c6_spider_closed_idempotent stFirst
    (Reachable.init localSettings quietOracle stFirst 0 rfl)

/-- C9: when the wait condition (if any) is met and the script (if any)
succeeds, `process_request` returns an `HtmlResponse` whose url is the
driver current URL read after the step sequence, whose body is the page
source encoded to UTF-8 bytes, whose declared encoding is the fixed
string `utf-8`, and whose request is the processed request. -/
theorem c9_response_shape (d : DriverState) (s : SpiderSettings) (o : FetchOracle)
    (r : SeleniumReq) (hw : r.wait_until = true → o.waitMet = true)
    (hs : r.script.isSome = true → o.scriptFails = false) :
    (process_request d s o (.selenium r)).result
      = .response
          { url := (process_request d s o (.selenium r)).driver.currentUrl
            body := ((process_request d s o (.selenium r)).driver.pageSource).toUTF8.toList
            encoding := "utf-8"
            request := (process_request d s o (.selenium r)).request } := by
  have hcond : (r.wait_until && !o.waitMet) = false := by
    cases hwu : r.wait_until
    · rfl
    · simp [hw hwu]
  cases hscr : r.script with
  | none => simp [process_request, postNavigate, hcond, hscr]
  | some s2 =>
    have hsf : o.scriptFails = false := hs (by simp [hscr])
    simp [process_request, postNavigate, hcond, hscr, hsf]

theorem c9_witness :
    (rFix.wait_until = true → oFix2.waitMet = true)
    ∧ (process_request dFix sFix oFix2 (.selenium rFix)).result
        = .response
            { url := (process_request dFix sFix oFix2 (.selenium rFix)).driver.currentUrl
              body := ((process_request dFix sFix oFix2
                          (.selenium rFix)).driver.pageSource).toUTF8.toList
              encoding := "utf-8"
              request := (process_request dFix sFix oFix2 (.selenium rFix)).request } :=
  ⟨by decide, c9_response_shape dFix sFix oFix2 rFix (by decide) (by decide)⟩

/-- C10: on a successful selenium fetch, the only mutation to the incoming
request is to its `meta` mapping — the `screenshot` key (only when a
screenshot was requested) and the `driver` back-reference — while url,
cookies, wait condition, wait time, screenshot flag and script are left
unchanged (the record update below touches only `meta`). -/
theorem c10_only_meta_mutated (d : DriverState) (s : SpiderSettings) (o : FetchOracle)
    (r : SeleniumReq) (hw : r.wait_until = true → o.waitMet = true)
    (hs : r.script.isSome = true → o.scriptFails = false) :
    (process_request d s o (.selenium r)).request
      = .selenium { r with
          meta := setKey
            (if r.screenshot then
              setKey r.meta "screenshot" (MetaVal.bytes o.screenshotPng)
            else r.meta) "driver" (MetaVal.driverRef d.id) } := by
  have hcond : (r.wait_until && !o.waitMet) = false := by
    cases hwu : r.wait_until
    · rfl
    · simp [hw hwu]
  cases hscr : r.script with
  | none =>
    cases hshot : r.screenshot <;>
      simp [process_request, postNavigate, hcond, hscr, hshot]
  | some s2 =>
    have hsf : o.scriptFails = false := hs (by simp [hscr])
    cases hshot : r.screenshot <;>
      simp [process_request, postNavigate, hcond, hscr, hsf, hshot]

theorem c10_witness :
    (rFix.script.isSome = true → oFix2.scriptFails = false)
    ∧ (process_request dFix sFix oFix2 (.selenium rFix)).request
        = .selenium { rFix with
            meta := setKey
              (if rFix.screenshot then
                setKey rFix.meta "screenshot" (MetaVal.bytes oFix2.screenshotPng)
              else rFix.meta) "driver" (MetaVal.driverRef dFix.id) } :=
  ⟨by decide, c10_only_meta_mutated dFix sFix oFix2 rFix (by decide) (by decide)⟩

end ScrapySelenium
